import Mathlib

/-!
Shallow embedding of the multi-agent task orchestrator
(app/graphs/state.py, app/agents/supervisor.py, app/agents/planner.py,
app/agents/executor.py, app/agents/critic.py, app/graphs/builder.py,
app/api/routes.py), together with proofs about its supervising FSM and
the routing driver.

The external language-model calls are abstracted as oracles indexed by
invocation order; all control flow, state extraction, patch construction
and patch merging is translated from the source.
-/

namespace Orchestrator

/-- FSM tags, the `SupervisorState` str-enum of app/agents/supervisor.py. -/
inductive SupervisorState where
  | start
  | plan
  | execute
  | critique
  | advance
  | complete
  | fail
  deriving DecidableEq

/-- Routing targets: the values of the `next_agent` channel plus the
conditional-edge names of app/graphs/builder.py.  The string "end" is
modelled by `end_`. -/
inductive Agent where
  | planner
  | executor
  | critic
  | supervisor
  | end_
  deriving DecidableEq

/-- Audit events appended by the supervisor (`AgentEvent` of app/graphs/state.py). -/
structure AgentEvent where
  agent : String
  action : String
  detail : Option String
  step_index : Option Nat
  deriving DecidableEq

/-- The run state (`AgentState` TypedDict of app/graphs/state.py).
`Option` models a key whose stored value may be Python `None`; for
`fsm_state` it additionally models the key being absent from the initial
state built in app/api/routes.py (the supervisor defaults it to START). -/
structure AgentState where
  user_goal : String
  plan : List String
  current_step : Option String
  current_step_index : Nat
  execution_history : List String
  execution_result : Option String
  last_executor_output : Option String
  critique : Option String
  is_approved : Option Bool
  fsm_state : Option SupervisorState
  retry_count : Nat
  next_agent : Option Agent
  final_output : Option String
  events : List AgentEvent
  schema_error : Option String
  deriving DecidableEq

/-- MAX_RETRIES = 3 (app/agents/supervisor.py). -/
def MAX_RETRIES : Nat := 3

/-- Python truthiness of an optional string: `None` and `""` are falsy. -/
def strTruthy : Option String → Bool
  | none => false
  | some s => !s.isEmpty

/-- Python `a or b` on optional strings: `a` when truthy, else `b`. -/
def pyOr (a b : Option String) : Option String :=
  if strTruthy a then a else b

/-- The guard condition of critic_node: `not result_text or not result_text.strip()`,
i.e. the execution result is missing, empty, or whitespace-only. -/
def pyBlank : Option String → Bool
  | none => true
  | some s => s.isEmpty || s.trim.isEmpty

/-- Python `str()` of an optional string as interpolated into prompts and
event details: `None` prints as "None". -/
def optStr : Option String → String
  | none => "None"
  | some s => s

/-- Python `str()` of a `SupervisorState` member (used by the fallback branch). -/
def fsmStr : SupervisorState → String
  | .start => "SupervisorState.START"
  | .plan => "SupervisorState.PLAN"
  | .execute => "SupervisorState.EXECUTE"
  | .critique => "SupervisorState.CRITIQUE"
  | .advance => "SupervisorState.ADVANCE"
  | .complete => "SupervisorState.COMPLETE"
  | .fail => "SupervisorState.FAIL"

/-- The dict returned by supervisor_node.  A field wrapped in an outer
`Option` models whether the key is present in the returned dict at all
(`none` = key absent, so the merge keeps the previous channel value);
the inner value is what the key is set to. -/
structure SPatch where
  events : List AgentEvent
  fsm_state : SupervisorState
  next_agent : Option Agent := none
  final_output : Option (Option String) := none
  current_step : Option (Option String) := none
  current_step_index : Option Nat := none
  retry_count : Option Nat := none
  execution_result : Option (Option String) := none
  critique : Option (Option String) := none
  is_approved : Option (Option Bool) := none
  deriving DecidableEq

/-- The event appended by the supervisor logging helper `log`. -/
def supEvent (action : String) (detail : Option String) (idx : Nat) : AgentEvent :=
  { agent := "supervisor", action := action, detail := detail, step_index := some idx }

/-- The supervisor FSM tick (supervisor_node of app/agents/supervisor.py),
a pure function from the state to the returned patch dict.
`Except.error` models the uncaught IndexError `plan[step_index]` can raise. -/
def supervisor_node (state : AgentState) : Except String SPatch :=
  let events := state.events
  let plan := state.plan
  let step_index := state.current_step_index
  let retry_count := state.retry_count
  let fsm_state0 := state.fsm_state.getD .start
  let current_step := state.current_step
  let execution_result := state.execution_result
  let critique := state.critique
  let is_approved := state.is_approved
  let last_output := state.last_executor_output
  let log := fun (action : String) (detail : Option String) =>
    events ++ [supEvent action detail step_index]
  -- TERMINAL RETRY GUARD
  if retry_count ≥ MAX_RETRIES then
    .ok { events := log "retry_limit_reached" (some "Forcing graceful completion"),
          fsm_state := .complete,
          next_agent := some .end_,
          final_output := some (pyOr last_output (pyOr execution_result
            (some "Task stopped after repeated failures. Partial output returned."))) }
  else
    -- FSM CORRECTION GUARD: plan exists but FSM stayed in START
    let fsm_state := if fsm_state0 = .start ∧ plan ≠ [] then .execute else fsm_state0
    if fsm_state = .start then
      .ok { events := log "start" none,
            fsm_state := .plan, next_agent := some .planner }
    else if fsm_state = .plan then
      match plan.get? step_index with
      | some step =>
          .ok { events := log "plan_ready" none,
                fsm_state := .execute,
                current_step := some (some step),
                next_agent := some .executor }
      | none => .error "IndexError"
    else if fsm_state = .execute then
      .ok { events := log "executing" current_step,
            fsm_state := .critique, next_agent := some .critic }
    else if fsm_state = .critique then
      if is_approved = some true then
        .ok { events := log "approved" none, fsm_state := .advance }
      else
        .ok { events := log "rejected" critique,
              fsm_state := .execute,
              retry_count := some (retry_count + 1),
              execution_result := some none,
              critique := some none,
              is_approved := some none,
              next_agent := some .executor }
    else if fsm_state = .advance then
      let next_index := step_index + 1
      if h : next_index ≥ plan.length then
        .ok { events := log "complete_all_steps" none,
              fsm_state := .complete,
              next_agent := some .end_,
              final_output := some (pyOr last_output execution_result) }
      else
        .ok { events := log "advance_step"
                (some (toString (next_index + 1) ++ "/" ++ toString plan.length)),
              fsm_state := .execute,
              current_step_index := some next_index,
              current_step := some (some (plan.get ⟨next_index, by omega⟩)),
              retry_count := some 0,
              execution_result := some none,
              critique := some none,
              is_approved := some none,
              next_agent := some .executor }
    else
      .ok { events := log "unexpected_state" (some (fsmStr fsm_state)),
            fsm_state := .fail,
            next_agent := some .end_,
            final_output := some (pyOr last_output
              (some "Unexpected termination. Partial output returned.")) }

/-- LangGraph channel merge of a supervisor patch: a key present in the
returned dict overwrites the channel, an absent key keeps the old value. -/
def applySPatch (s : AgentState) (p : SPatch) : AgentState :=
  { s with
    events := p.events
    fsm_state := some p.fsm_state
    next_agent := match p.next_agent with
      | some a => some a
      | none => s.next_agent
    final_output := p.final_output.getD s.final_output
    current_step := p.current_step.getD s.current_step
    current_step_index := p.current_step_index.getD s.current_step_index
    retry_count := p.retry_count.getD s.retry_count
    execution_result := p.execution_result.getD s.execution_result
    critique := p.critique.getD s.critique
    is_approved := p.is_approved.getD s.is_approved }

/-- The structured output schema of the executor (app/schemas/execution.py). -/
structure ExecutionOutput where
  content : String
  deriving DecidableEq

/-- The structured output schema of the critic (app/agents/critic.py). -/
structure CriticOutput where
  approved : Bool
  feedback : String
  deriving DecidableEq

/-- The external language-model capabilities, abstracted as oracles indexed
by invocation order within the run (the prompt strings assembled by the
nodes are consumed only by these external calls and carry no control flow,
so they are absorbed into the oracle):
* `plannerLLM` stands for the single `llm.invoke` of planner_node together
  with its ast-literal / line-split parsing, i.e. the raw step list before
  the safety guards;
* `executorLLM n` is the result of the n-th executor structured call,
  `Except.error` modelling the caught pydantic ValidationError;
* `criticLLM n` is the result of the n-th critic structured call. -/
structure Oracles where
  plannerLLM : List String
  executorLLM : Nat → Except String ExecutionOutput
  criticLLM : Nat → CriticOutput

/-- The safety guards of planner_node: strip every entry, drop blanks,
hard-cap at 4 steps, and fall back to the single default step. -/
def planGuard (raw : List String) : List String :=
  let plan := (raw.map String.trim).filter (fun s => !s.isEmpty)
  let plan := plan.take 4
  if plan.isEmpty then ["Produce a final, complete answer to the task"] else plan

/-- The dict returned by planner_node; every key is always present. -/
structure PPatch where
  plan : List String
  current_step : Option String
  current_step_index : Nat
  fsm_state : SupervisorState
  execution_history : List String
  execution_result : Option String
  last_executor_output : Option String
  critique : Option String
  is_approved : Option Bool
  retry_count : Nat
  deriving DecidableEq

/-- planner_node of app/agents/planner.py. -/
def planner_node (o : Oracles) (_state : AgentState) : PPatch :=
  let plan := planGuard o.plannerLLM
  { plan := plan,
    current_step := some (plan.headD ""),
    current_step_index := 0,
    fsm_state := .execute,
    execution_history := [],
    execution_result := none,
    last_executor_output := none,
    critique := none,
    is_approved := none,
    retry_count := 0 }

def applyPPatch (s : AgentState) (p : PPatch) : AgentState :=
  { s with
    plan := p.plan
    current_step := p.current_step
    current_step_index := p.current_step_index
    fsm_state := some p.fsm_state
    execution_history := p.execution_history
    execution_result := p.execution_result
    last_executor_output := p.last_executor_output
    critique := p.critique
    is_approved := p.is_approved
    retry_count := p.retry_count }

/-- The dict returned by executor_node: the ValidationError branch returns
three keys, the success branch five.  Outer `Option` models key presence. -/
structure EPatch where
  execution_result : Option String
  fsm_state : SupervisorState
  schema_error : Option String
  last_executor_output : Option (Option String) := none
  execution_history : Option (List String) := none
  deriving DecidableEq

/-- executor_node of app/agents/executor.py.  `callIdx` is the invocation
ordinal feeding the oracle that stands for the structured llm call. -/
def executor_node (o : Oracles) (callIdx : Nat) (state : AgentState) : EPatch :=
  match o.executorLLM callIdx with
  | .error e =>
      -- Schema failure: retryable, Supervisor will handle retries
      { execution_result := none,
        schema_error := some e,
        fsm_state := .execute }
  | .ok result =>
      { execution_result := some result.content,
        last_executor_output := some (some result.content),
        execution_history := some (state.execution_history ++ [result.content]),
        fsm_state := .critique,
        schema_error := none }

def applyEPatch (s : AgentState) (p : EPatch) : AgentState :=
  { s with
    execution_result := p.execution_result
    fsm_state := some p.fsm_state
    schema_error := p.schema_error
    last_executor_output := p.last_executor_output.getD s.last_executor_output
    execution_history := p.execution_history.getD s.execution_history }

/-- The dict returned by critic_node; both keys are always present. -/
structure CPatch where
  critique : String
  is_approved : Bool
  deriving DecidableEq

/-- critic_node of app/agents/critic.py: the deterministic emptiness guard
auto-rejects without consulting the oracle; otherwise the n-th critic
llm call decides. -/
def critic_node (o : Oracles) (callIdx : Nat) (state : AgentState) : CPatch :=
  let result_text := state.execution_result
  if pyBlank result_text then
    { critique := "Executor produced no output for this step.",
      is_approved := false }
  else
    let out := o.criticLLM callIdx
    { critique := out.feedback, is_approved := out.approved }

def applyCPatch (s : AgentState) (p : CPatch) : AgentState :=
  { s with
    critique := some p.critique
    is_approved := some p.is_approved }

/-- The conditional-edge routing function of app/graphs/builder.py:
`route(state) = state["next_agent"]`, looked up in the edge map
planner / executor / critic / supervisor / end. -/
def route (state : AgentState) : Option Agent := state.next_agent

/-- One observation per node execution of the driver loop: supervisor ticks
record the tag, retry_count, step index and plan length they extract;
executor invocations record the current step index. -/
inductive TraceEntry where
  | sup (fsm : SupervisorState) (retry stepIdx planLen : Nat)
  | plannerInv
  | execInv (stepIdx : Nat)
  | criticInv
  deriving DecidableEq

def execSteps (tr : List TraceEntry) : List Nat :=
  tr.filterMap fun e => match e with
    | .execInv k => some k
    | _ => none

def countExec (tr : List TraceEntry) : Nat := (execSteps tr).length

def countCritic (tr : List TraceEntry) : Nat :=
  (tr.filter fun e => e = .criticInv).length

/-- Step-index and plan-length observations of the supervisor ticks, in order. -/
def supPairs (tr : List TraceEntry) : List (Nat × Nat) :=
  tr.filterMap fun e => match e with
    | .sup _ _ i l => some (i, l)
    | _ => none

/-- Retry-count observations of the supervisor ticks, in order. -/
def supRetries (tr : List TraceEntry) : List Nat :=
  tr.filterMap fun e => match e with
    | .sup _ r _ _ => some r
    | _ => none

inductive DriverErr where
  | recursionLimit
  | invalidRoute
  | nodeError (msg : String)
  deriving DecidableEq

/-- The LangGraph Pregel loop compiled by build_graph (app/graphs/builder.py):
entry point is the supervisor; each performer has an unconditional edge back
to the supervisor; after a supervisor tick the conditional edge routes on
`next_agent`.  `fuel` models the recursion limit: exhausting it before END
raises GraphRecursionError (`DriverErr.recursionLimit`). -/
def loop (o : Oracles) : Nat → Agent → AgentState → List TraceEntry →
    Except DriverErr (AgentState × List TraceEntry)
  | 0, _, _, _ => .error .recursionLimit
  | fuel + 1, node, s, tr =>
    match node with
    | .supervisor =>
        let tr := tr ++ [.sup (s.fsm_state.getD .start) s.retry_count
          s.current_step_index s.plan.length]
        match supervisor_node s with
        | .error e => .error (.nodeError e)
        | .ok p =>
            let s := applySPatch s p
            match route s with
            | some .end_ => .ok (s, tr)
            | some next => loop o fuel next s tr
            | none => .error .invalidRoute
    | .planner =>
        let tr := tr ++ [.plannerInv]
        loop o fuel .supervisor (applyPPatch s (planner_node o s)) tr
    | .executor =>
        let s := applyEPatch s (executor_node o (countExec tr) s)
        loop o fuel .supervisor s (tr ++ [.execInv s.current_step_index])
    | .critic =>
        let s := applyCPatch s (critic_node o (countCritic tr) s)
        loop o fuel .supervisor s (tr ++ [.criticInv])
    | .end_ => .ok (s, tr)

/-- graph.invoke with the default recursion limit of 25. -/
def runGraph (o : Oracles) (limit : Nat) (s : AgentState) :
    Except DriverErr (AgentState × List TraceEntry) :=
  loop o limit .supervisor s []

/-- The initial state assembled for an inbound request in app/api/routes.py:
note that `fsm_state`, `last_executor_output` and `schema_error` are not
among the keys it sets. -/
def initialState (goal : String) : AgentState :=
  { user_goal := goal,
    plan := [],
    current_step := none,
    current_step_index := 0,
    execution_history := [],
    execution_result := none,
    last_executor_output := none,
    critique := none,
    is_approved := none,
    fsm_state := none,
    retry_count := 0,
    next_agent := none,
    final_output := none,
    events := [],
    schema_error := none }

def totalTrace (r : Except DriverErr (AgentState × List TraceEntry)) :
    List TraceEntry :=
  match r with
  | .ok (_, tr) => tr
  | .error _ => []

/-- A concrete oracle assignment used by the concrete run evaluations:
the planner parse yields ["A", "B"], every executor call validates and
returns "output-n" on its n-th invocation, and the critic model approves
everything it is actually asked about. -/
def oracleAB : Oracles :=
  { plannerLLM := ["A", "B"],
    executorLLM := fun i => .ok { content := "output-" ++ toString (i + 1) },
    criticLLM := fun _ => { approved := true, feedback := "looks good" } }

/-- C2: for every input state with retry_count >= MAX_RETRIES (3), regardless
of the current fsm tag, the supervisor returns fsm_state = COMPLETE (never
FAIL) with the terminal directive "end", and final_output is last_output when
that is set (non-empty), otherwise execution_result when that is set,
otherwise the fixed fallback message; the guard pre-empts every normal
transition since no tag hypothesis is needed. -/
theorem retry_guard_forces_complete (s : AgentState)
    (h : MAX_RETRIES ≤ s.retry_count) :
    supervisor_node s = .ok
      { events := s.events ++ [supEvent "retry_limit_reached"
          (some "Forcing graceful completion") s.current_step_index],
        fsm_state := .complete,
        next_agent := some .end_,
        final_output := some (pyOr s.last_executor_output (pyOr s.execution_result
          (some "Task stopped after repeated failures. Partial output returned."))) } ∧
    SupervisorState.complete ≠ SupervisorState.fail ∧
    (strTruthy s.last_executor_output = true →
      pyOr s.last_executor_output (pyOr s.execution_result
        (some "Task stopped after repeated failures. Partial output returned.")) =
      s.last_executor_output) ∧
    (strTruthy s.last_executor_output = false →
      strTruthy s.execution_result = true →
      pyOr s.last_executor_output (pyOr s.execution_result
        (some "Task stopped after repeated failures. Partial output returned.")) =
      s.execution_result) ∧
    (strTruthy s.last_executor_output = false →
      strTruthy s.execution_result = false →
      pyOr s.last_executor_output (pyOr s.execution_result
        (some "Task stopped after repeated failures. Partial output returned.")) =
      some "Task stopped after repeated failures. Partial output returned.") := by
  refine ⟨by simp [supervisor_node, h], by simp, ?_, ?_, ?_⟩
  · intro h1
    simp [pyOr, h1]
  · intro h1 h2
    simp [pyOr, h1, h2]
  · intro h1 h2
    simp [pyOr, h1, h2]

/-- Concrete exhausted-retry state for the witness of the retry guard. -/
def exhaustedState : AgentState :=
  { initialState "g" with retry_count := 3, last_executor_output := some "partial" }

/-- Witness for `retry_guard_forces_complete` at a concrete exhausted state:
the budget is exhausted, the patch is the forced graceful completion, and
final_output resolves to the set last_output. -/
theorem retry_guard_forces_complete_witness :
    MAX_RETRIES ≤ exhaustedState.retry_count ∧
    supervisor_node exhaustedState = .ok
      { events := exhaustedState.events ++ [supEvent "retry_limit_reached"
          (some "Forcing graceful completion") exhaustedState.current_step_index],
        fsm_state := .complete,
        next_agent := some .end_,
        final_output := some (pyOr exhaustedState.last_executor_output
          (pyOr exhaustedState.execution_result
            (some "Task stopped after repeated failures. Partial output returned."))) } ∧
    pyOr exhaustedState.last_executor_output (pyOr exhaustedState.execution_result
      (some "Task stopped after repeated failures. Partial output returned.")) =
      exhaustedState.last_executor_output := by
  have h := retry_guard_forces_complete exhaustedState (by decide)
  exact ⟨by decide, h.1, h.2.2.1 (by decide)⟩

/-- C10: in CRITIQUE with budget left, every is_approved value other than
exactly `some true` — including `none`, the unset value present when the
critic has not run — is treated as a rejection: retry_count is incremented
by 1, execution_result / critique / is_approved are cleared to None, and the
executor is dispatched. -/
theorem critique_non_true_is_rejection (s : AgentState)
    (hf : s.fsm_state = some .critique)
    (hr : s.retry_count < MAX_RETRIES)
    (ha : s.is_approved ≠ some true) :
    supervisor_node s = .ok
      { events := s.events ++ [supEvent "rejected" s.critique s.current_step_index],
        fsm_state := .execute,
        retry_count := some (s.retry_count + 1),
        execution_result := some none,
        critique := some none,
        is_approved := some none,
        next_agent := some .executor } := by
  simp [supervisor_node, hf, ha, Nat.not_le.mpr hr]

/-- Concrete CRITIQUE state in which the critic has not run (is_approved unset). -/
def unsetApprovalState : AgentState :=
  { initialState "g" with
    plan := ["A"], current_step := some "A",
    fsm_state := some .critique, retry_count := 1, critique := none }

/-- Witness for `critique_non_true_is_rejection` at is_approved = none. -/
theorem critique_non_true_is_rejection_witness :
    unsetApprovalState.fsm_state = some .critique ∧
    unsetApprovalState.retry_count < MAX_RETRIES ∧
    unsetApprovalState.is_approved = none ∧
    supervisor_node unsetApprovalState = .ok
      { events := unsetApprovalState.events ++
          [supEvent "rejected" unsetApprovalState.critique
            unsetApprovalState.current_step_index],
        fsm_state := .execute,
        retry_count := some (unsetApprovalState.retry_count + 1),
        execution_result := some none,
        critique := some none,
        is_approved := some none,
        next_agent := some .executor } :=
  ⟨rfl, by decide, rfl,
   critique_non_true_is_rejection unsetApprovalState rfl (by decide) (by decide)⟩

/-- Concrete CRITIQUE state right after a critic approval. -/
def approvedState : AgentState :=
  { initialState "g" with
    plan := ["A", "B"], current_step := some "A",
    execution_result := some "out", last_executor_output := some "out",
    fsm_state := some .critique, is_approved := some true, retry_count := 0 }

/-- Counterexample to C5 as stated: on a CRITIQUE approval (retry budget
left) the returned patch does NOT contain the execution_result key at all
(`none`), rather than setting it to None (`some none`): leaving CRITIQUE by
approval does not clear execution_result. -/
theorem critique_approval_keeps_execution_result :
    approvedState.fsm_state = some .critique ∧
    approvedState.retry_count < MAX_RETRIES ∧
    (supervisor_node approvedState).map (fun p => p.execution_result) =
      .ok (none : Option (Option String)) ∧
    ((none : Option (Option String)) ≠ some (none : Option String)) := by
  refine ⟨rfl, by decide, rfl, by decide⟩

/-- C5 amended: in CRITIQUE with budget left, the patch clears
execution_result to None exactly on rejection; on approval it leaves the
execution_result channel untouched (the patch omits the key; fsm moves to
ADVANCE and clearing only happens at a later ADVANCE tick). -/
theorem critique_exit_result_clearing (s : AgentState)
    (hf : s.fsm_state = some .critique)
    (hr : s.retry_count < MAX_RETRIES) :
    (supervisor_node s).map (fun p => p.execution_result) =
      .ok (if s.is_approved = some true then none else some none) ∧
    (supervisor_node s).map (fun p => p.fsm_state) =
      .ok (if s.is_approved = some true then .advance else .execute) := by
  by_cases ha : s.is_approved = some true <;>
    simp [supervisor_node, Except.map, hf, ha, Nat.not_le.mpr hr]

/-- Witness for `critique_exit_result_clearing` at the concrete approval state. -/
theorem critique_exit_result_clearing_witness :
    approvedState.fsm_state = some .critique ∧
    approvedState.retry_count < MAX_RETRIES ∧
    (supervisor_node approvedState).map (fun p => p.execution_result) =
      .ok (if approvedState.is_approved = some true then none else some none) ∧
    (supervisor_node approvedState).map (fun p => p.fsm_state) =
      .ok (if approvedState.is_approved = some true then .advance else .execute) := by
  have h := critique_exit_result_clearing approvedState rfl (by decide)
  exact ⟨rfl, by decide, h.1, h.2⟩

/-- Concrete START state that already carries a non-empty plan. -/
def startPlanState : AgentState :=
  { initialState "g" with plan := ["A"], fsm_state := some .start }

/-- Counterexample to C6 as stated: from START with a non-empty plan (and
budget left) the supervisor does NOT move to EXECUTE with an executor
directive; the correction guard rewrites the local tag to EXECUTE and the
tick is then processed as an EXECUTE tick, yielding fsm = CRITIQUE and the
critic as next agent. -/
theorem start_selfheal_cex :
    startPlanState.fsm_state = some .start ∧
    startPlanState.plan ≠ [] ∧
    startPlanState.retry_count < MAX_RETRIES ∧
    (supervisor_node startPlanState).map (fun p => (p.fsm_state, p.next_agent)) =
      .ok (SupervisorState.critique, some Agent.critic) ∧
    ((SupervisorState.critique, some Agent.critic) ≠
      (SupervisorState.execute, some Agent.executor)) := by
  refine ⟨rfl, by decide, by decide, rfl, by decide⟩

/-- C6 amended: from START with a non-empty plan and budget left, the
self-heal guard corrects the tag to EXECUTE and the tick is processed as an
EXECUTE tick: the patch sets fsm = CRITIQUE and dispatches the critic. -/
theorem start_selfheal_dispatches_critic (s : AgentState)
    (hf : s.fsm_state.getD .start = .start)
    (hp : s.plan ≠ [])
    (hr : s.retry_count < MAX_RETRIES) :
    supervisor_node s = .ok
      { events := s.events ++ [supEvent "executing" s.current_step s.current_step_index],
        fsm_state := .critique,
        next_agent := some .critic } := by
  simp [supervisor_node, hf, hp, Nat.not_le.mpr hr]

/-- Witness for `start_selfheal_dispatches_critic` at the concrete START state. -/
theorem start_selfheal_dispatches_critic_witness :
    startPlanState.fsm_state.getD .start = .start ∧
    startPlanState.plan = ["A"] ∧
    startPlanState.retry_count < MAX_RETRIES ∧
    supervisor_node startPlanState = .ok
      { events := startPlanState.events ++
          [supEvent "executing" startPlanState.current_step
            startPlanState.current_step_index],
        fsm_state := .critique,
        next_agent := some .critic } :=
  ⟨rfl, rfl, by decide,
   start_selfheal_dispatches_critic startPlanState rfl (by decide) (by decide)⟩

/-- C8: when execution_result is missing, empty or whitespace-only, the
critic returns the fixed guard feedback with approved = false for EVERY
oracle (so the language-model capability cannot influence the outcome, i.e.
it is not consulted), and the subsequent supervisor tick on the patched
state counts the rejection: retry_count increments by 1. -/
theorem critic_empty_guard_rejects (o : Oracles) (i : Nat) (s : AgentState)
    (hb : pyBlank s.execution_result = true)
    (hf : s.fsm_state = some .critique)
    (hr : s.retry_count < MAX_RETRIES) :
    critic_node o i s =
      { critique := "Executor produced no output for this step.",
        is_approved := false } ∧
    (supervisor_node (applyCPatch s (critic_node o i s))).map
      (fun p => p.retry_count) = .ok (some (s.retry_count + 1)) := by
  have hc : critic_node o i s =
      { critique := "Executor produced no output for this step.",
        is_approved := false } := by
    simp [critic_node, hb]
  refine ⟨hc, ?_⟩
  rw [hc]
  simp [supervisor_node, applyCPatch, Except.map, hf, Nat.not_le.mpr hr]

/-- Concrete CRITIQUE state whose execution result is the empty string. -/
def blankResultState : AgentState :=
  { initialState "g" with
    plan := ["A"], current_step := some "A",
    fsm_state := some .critique, execution_result := some "",
    retry_count := 1 }

/-- Witness for `critic_empty_guard_rejects` at an empty-string result. -/
theorem critic_empty_guard_rejects_witness :
    pyBlank blankResultState.execution_result = true ∧
    blankResultState.fsm_state = some .critique ∧
    blankResultState.retry_count < MAX_RETRIES ∧
    (critic_node oracleAB 0 blankResultState =
      { critique := "Executor produced no output for this step.",
        is_approved := false } ∧
    (supervisor_node (applyCPatch blankResultState
        (critic_node oracleAB 0 blankResultState))).map
      (fun p => p.retry_count) = .ok (some (blankResultState.retry_count + 1))) :=
  ⟨by decide, rfl, by decide,
   critic_empty_guard_rejects oracleAB 0 blankResultState (by decide) rfl (by decide)⟩

/-- The safety guards of planner_node always yield a non-empty plan. -/
theorem planGuard_length_pos (raw : List String) : 0 < (planGuard raw).length := by
  cases h : ((raw.map String.trim).filter (fun s => !s.isEmpty)).take 4 with
  | nil => simp [planGuard, h]
  | cons a t => simp [planGuard, h]

/-- Shape of every run of the compiled graph from the API initial state,
for arbitrary oracles: the run terminates within the default recursion
limit, the executor is invoked exactly three times, always at step index 0,
the first supervisor tick observes step index 0 with the empty plan, and
every later supervisor tick observes step index 0 with the positive length
of the guarded plan. -/
theorem run_api_shape (o : Oracles) (goal : String) :
    ∃ st tr, runGraph o 25 (initialState goal) = .ok (st, tr) ∧
      execSteps tr = [0, 0, 0] ∧
      (supPairs tr).head? = some (0, 0) ∧
      ∀ pr ∈ (supPairs tr).drop 1, pr.1 = 0 ∧ 0 < pr.2 := by
  rcases h0 : o.executorLLM 0 with e0 | c0 <;>
  rcases h1 : o.executorLLM 1 with e1 | c1 <;>
  rcases h2 : o.executorLLM 2 with e2 | c2 <;>
  (simp [runGraph, loop, initialState, supervisor_node, applySPatch,
    planner_node, applyPPatch, executor_node, applyEPatch, critic_node,
    applyCPatch, route, countExec, countCritic, execSteps, supPairs,
    pyBlank, MAX_RETRIES, supEvent, h0, h1, h2];
   refine ⟨_, _, ⟨rfl, rfl⟩, ?_, ?_, ?_⟩ <;> simp [planGuard_length_pos])

/-- A list all of whose elements are 0 is non-decreasing. -/
theorem chain_le_of_all_zero (l : List Nat) (h : ∀ x ∈ l, x = 0) :
    List.Chain' (fun a b => a ≤ b) l := by
  induction l with
  | nil => simp
  | cons a t ih =>
      cases t with
      | nil => simp
      | cons b u =>
          rw [List.chain'_cons]
          refine ⟨?_, ih (fun x hx => h x (by simp [hx]))⟩
          rw [h a (by simp), h b (by simp)]

/-- C1 evaluated: with the planner parse yielding ["A", "B"], every executor
call returning output-n, and a critic model that approves everything, the
actual run invokes the executor only 3 times, all on step index 0, the
supervisor ticks observe retry_count [0, 0, 0, 1, 2, 3], and final_output is
the third executor output for step A (step B is never reached): the critic
is dispatched once, before any execution, and never evaluates an executor
output, so the retry budget is exhausted on step A. -/
theorem scenarioA_actual_run :
    (runGraph oracleAB 25 (initialState "goal")).map
      (fun r => (countExec r.2, supRetries r.2, execSteps r.2,
        r.1.final_output, r.1.fsm_state)) =
    .ok (3, [0, 0, 0, 1, 2, 3], [0, 0, 0],
      some "output-3", some .complete) := by rfl

/-- The supervisor input state immediately after a critic approval: the
preceding EXECUTE tick left next_agent = "critic", the critic set
is_approved = True, and the supervisor is about to observe the approval. -/
def postApprovalState : AgentState :=
  { initialState "g" with
    plan := ["A", "B"], current_step := some "A",
    execution_history := ["out"], execution_result := some "out",
    last_executor_output := some "out", critique := some "prev",
    is_approved := some true, fsm_state := some .critique,
    next_agent := some .critic, retry_count := 0 }

/-- C3 evaluated: from the post-approval state the supervisor tick that
observes the approval (fsm = CRITIQUE) is immediately followed by a CRITIC
invocation — the approval patch omits next_agent, so the stale "critic"
value routes to the critic again — and only then does the supervisor tick
that resolves ADVANCE run: the tick after approval is not zero-I/O. -/
theorem advance_tick_invokes_critic :
    (totalTrace (runGraph oracleAB 25 postApprovalState)).take 3 =
      [.sup .critique 0 0 2, .criticInv, .sup .advance 0 0 2] := by rfl

/-- C4: in every run from the API initial state, for each value k of the
step index, the number of executor invocations performed while the step
index is k is at most 4 (in fact at most 3). -/
theorem executor_invocations_per_step_le_four
    (o : Oracles) (goal : String) (k : Nat) :
    (execSteps (totalTrace (runGraph o 25 (initialState goal)))).count k ≤ 4 := by
  obtain ⟨st, tr, heq, hexec, -, -⟩ := run_api_shape o goal
  rw [heq]
  simp only [totalTrace]
  rw [hexec]
  calc ([0, 0, 0] : List Nat).count k ≤ ([0, 0, 0] : List Nat).length :=
        List.count_le_length k [0, 0, 0]
    _ ≤ 4 := by decide

/-- Counterexample to C7 as stated: the initial state built for the inbound
request is itself a state of the run (observed by the first supervisor
tick), and it violates step_index < len(plan): its step index is 0 while its
plan is empty. -/
theorem step_index_bound_fails_initially :
    (supPairs (totalTrace (runGraph oracleAB 25 (initialState "g")))).head? =
      some (0, 0) ∧
    (initialState "g").current_step_index = 0 ∧
    (initialState "g").plan.length = 0 ∧
    ¬((initialState "g").current_step_index < (initialState "g").plan.length) := by
  refine ⟨rfl, rfl, rfl, by decide⟩

/-- C7 amended: across every run from the API initial state the step index
observed by the supervisor ticks is non-decreasing, and from the first
post-planning tick onwards (i.e. at every supervisor tick after the first)
it is strictly below the plan length; at the very first tick the plan is
still empty, so the bound cannot hold there. -/
theorem step_index_monotone_and_bounded (o : Oracles) (goal : String) :
    List.Chain' (fun a b => a ≤ b)
      ((supPairs (totalTrace (runGraph o 25 (initialState goal)))).map Prod.fst) ∧
    ((supPairs (totalTrace (runGraph o 25 (initialState goal)))).drop 1).all
      (fun pr => decide (pr.1 < pr.2)) = true := by
  obtain ⟨st, tr, heq, -, hhead, hrest⟩ := run_api_shape o goal
  rw [heq]
  simp only [totalTrace]
  have hall : ∀ pr ∈ supPairs tr, pr.1 = 0 := by
    intro pr hpr
    cases hsp : supPairs tr with
    | nil =>
        rw [hsp] at hpr
        exact absurd hpr (List.not_mem_nil pr)
    | cons q rest =>
        rw [hsp] at hpr hhead
        rw [List.head?_cons, Option.some_inj] at hhead
        rcases List.mem_cons.mp hpr with h | h
        · rw [h, hhead]
        · have := hrest pr (by rw [hsp, List.drop_one, List.tail_cons]; exact h)
          exact this.1
  constructor
  · apply chain_le_of_all_zero
    intro x hx
    rcases List.mem_map.mp hx with ⟨pr, hpr, hx'⟩
    rw [← hx']
    exact hall pr hpr
  · rw [List.all_eq_true]
    intro pr hpr
    have h2 := hrest pr hpr
    simp only [decide_eq_true_eq]
    omega

/-- Counterexample to C9 as stated: a run that would need more ticks than
the configured ceiling (here 5) does not end in a terminal FAIL state with
partial output — the driver aborts with a recursion error, so no final
state, no FAIL tag and no partial output exist; the API layer turns this
exception into a generic service error. -/
theorem ceiling_hit_aborts_run :
    runGraph oracleAB 5 (initialState "g") = .error .recursionLimit := by rfl

/-- C9 amended: with the default recursion limit of 25 the ceiling is
unreachable from the API initial state — every run terminates normally
within the limit, for arbitrary oracles. -/
theorem default_ceiling_unreachable (o : Oracles) (goal : String) :
    ∃ st tr, runGraph o 25 (initialState goal) = .ok (st, tr) := by
  obtain ⟨st, tr, heq, -, -, -⟩ := run_api_shape o goal
  exact ⟨st, tr, heq⟩

end Orchestrator
